import Mathlib

/-!
Shallow embedding of the TheNewsAPI MCP repository:
client code in thenewsapi_mcp/thenewsapi_client.py (gateway) and
thenewsapi_mcp/server.py (tool facade).  Network interaction is modelled
by an explicit argument describing what the single outbound HTTP request
does (raise an exception, or return a parsed JSON payload); everything
else translates the Python control flow directly.
-/

namespace TheNewsAPI

/-- JSON scalar values as they occur in the upstream payloads: strings and
integers suffice for the fields this code touches. -/
inductive JVal where
  | s (v : String)
  | n (v : Int)
deriving DecidableEq, Repr

/-- Truthiness of a JSON scalar, matching how the code tests a value with
a bare conditional: the empty string and the integer zero are falsy. -/
def jTruthy : JVal → Bool
  | .s v => v != ""
  | .n v => v != 0

/-- Truthiness of a possibly-missing value: a missing key is falsy. -/
def optTruthy : Option JVal → Bool
  | none => false
  | some v => jTruthy v

/-- Whitespace characters stripped by the str strip method. -/
def isPyWhitespace (c : Char) : Bool :=
  c = ' ' || c = '\t' || c = '\n' || c = '\r' || c = '\x0b' || c = '\x0c'

/-- The str strip method: remove leading and trailing whitespace. -/
def pyStrip (s : String) : String :=
  String.mk (((s.toList.dropWhile isPyWhitespace).reverse.dropWhile isPyWhitespace).reverse)

/-- Slicing a string to its first n characters. -/
def pyTake (s : String) (n : Nat) : String := String.mk (s.toList.take n)

/-- Length of a string in characters. -/
def pyLen (s : String) : Nat := s.toList.length

/-- The NewsCategory enumeration of thenewsapi_client.py. -/
inductive NewsCategory where
  | general | science | sports | business | health | entertainment | tech | politics | food | travel
deriving DecidableEq, Repr

/-- Truthiness of an optional category list: missing or empty is falsy. -/
def categoriesTruthy : Option (List NewsCategory) → Bool
  | none => false
  | some l => !l.isEmpty

/-- One upstream result item, a JSON object accessed only through the keys
below; a field is none when the key is absent. -/
structure Item where
  title : Option JVal := none
  description : Option JVal := none
  snippet : Option JVal := none
  uuid : Option JVal := none
  published_at : Option JVal := none
  url : Option JVal := none
  source : Option JVal := none
deriving DecidableEq, Repr

/-- The mapped article dictionary appended to the result list by
search_news and search_similar_news_by_uuid. -/
structure Article where
  title : JVal
  description : JVal
  snippet : JVal
  uuid : JVal
  published_at : JVal
  url : JVal
  source : JVal
deriving DecidableEq, Repr

/-- Body of the per-item loop in search_news (lines 98 to 114) and in
search_similar_news_by_uuid (lines 227 to 243): skip the item when its
title is missing or falsy, otherwise build the article dictionary with
the get defaults of the source (empty string, except integer 0 for the
uuid and source keys). -/
def mapItem (item : Item) : Option Article :=
  match item.title with
  | none => none
  | some t =>
    if jTruthy t then
      some { title := t
             description := item.description.getD (.s "")
             snippet := item.snippet.getD (.s "")
             uuid := item.uuid.getD (.n 0)
             published_at := item.published_at.getD (.s "")
             url := item.url.getD (.s "")
             source := item.source.getD (.n 0) }
    else none

/-- The whole result-mapping loop: filter and map every upstream item in
order. -/
def mapResults (items : List Item) : List Article := items.filterMap mapItem

/-- The embedded error object of an upstream error response; both fields
are read only with defaulting get for logging. -/
structure ErrInfo where
  code : Option String := none
  info : Option String := none
deriving DecidableEq, Repr

/-- Parsed JSON payload of the news/all and news/similar endpoints. -/
structure SearchPayload where
  error : Option ErrInfo := none
  warnings : Option (List (String × String)) := none
  data : Option (List Item) := none
deriving DecidableEq, Repr

/-- The exception classes distinguished by the except clauses of the
client: the four requests exception types, ValueError from json decoding,
KeyError from direct dictionary indexing, and any other exception, which
the final catch-all clause also absorbs. -/
inductive PyExc where
  | timeout
  | connectionError
  | httpError
  | requestException
  | valueError
  | keyError (key : String)
  | other
deriving DecidableEq, Repr

/-- Outcome of the single outbound HTTP request plus parsing: either some
exception is raised (timeout, connection error, raise_for_status on a
non-2xx status, ValueError from a malformed body), or a parsed payload is
obtained. -/
inductive HttpResult (α : Type) where
  | exn (e : PyExc)
  | ok (payload : α)
deriving DecidableEq, Repr

/-- The domain allow-list fixed in the client constructor. -/
def defaultDomains : List String := ["nytimes.com", "bbc.com", "apnews.com"]

/-- The language allow-list fixed in the client constructor. -/
def defaultLanguages : List String := ["en"]

/-- The params dictionary sent by search_news (lines 60 to 68); the
categories entry is present only when a non-empty category list was
given. -/
structure SearchParams where
  api_token : Option String
  search : String
  limit : Int
  domains : List String
  language : List String
  categories : Option (List NewsCategory) := none
deriving DecidableEq, Repr

/-- The try-block of search_news after the request succeeded or raised:
an exception propagates; on a payload carrying an error object the
function returns an empty list; otherwise the data array (defaulting to
empty) is filtered and mapped. -/
def searchBody (net : HttpResult SearchPayload) : Except PyExc (List Article) :=
  match net with
  | .exn e => .error e
  | .ok data =>
    match data.error with
    | some _ => .ok []
    | none => .ok (mapResults (data.data.getD []))

/-- The except clauses of search_news (lines 118 to 135): every exception
class, including the final catch-all, converts to an empty list. -/
def searchCatch (r : Except PyExc (List Article)) : List Article :=
  match r with
  | .ok v => v
  | .error .timeout => []
  | .error .connectionError => []
  | .error .httpError => []
  | .error .requestException => []
  | .error .valueError => []
  | .error (.keyError _) => []
  | .error .other => []

/-- Embedding of TheNewsAPIClient.search_news.  Returns the params of the
outbound request (none when the early empty-query return fires and no
request is issued) together with the result list. -/
def search_news (access_token : Option String) (query : String)
    (categories : Option (List NewsCategory)) (limit : Int)
    (net : HttpResult SearchPayload) : Option SearchParams × List Article :=
  if query = "" ∨ pyStrip query = "" then (none, [])
  else
    let trimmed_query := pyStrip query
    let trimmed_query := if pyLen trimmed_query > 300 then pyTake trimmed_query 100 else trimmed_query
    let limit := if limit ≤ 0 then (1 : Int) else if limit > 3 then 3 else limit
    let params : SearchParams :=
      { api_token := access_token
        search := trimmed_query
        limit := limit
        domains := defaultDomains
        language := defaultLanguages
        categories := if categoriesTruthy categories then categories else none }
    (some params, searchCatch (searchBody net))

/-- The params dictionary of search_similar_news_by_uuid (lines 196 to
202); unlike search_news it always carries the categories entry, even
when none were given. -/
structure SimilarParams where
  api_token : Option String
  url : String
  limit : Int
  categories : Option (List NewsCategory)
  domains : List String
  language : List String
deriving DecidableEq, Repr

/-- Embedding of TheNewsAPIClient.search_similar_news_by_uuid: clamp the
limit, always issue the request, and run the same error containment and
item mapping as search_news. -/
def search_similar_news_by_uuid (access_token : Option String) (uuid : String)
    (limit : Int) (categories : Option (List NewsCategory))
    (net : HttpResult SearchPayload) : SimilarParams × List Article :=
  let limit := if limit ≤ 0 then (1 : Int) else if limit > 3 then 3 else limit
  let params : SimilarParams :=
    { api_token := access_token
      url := "https://api.thenewsapi.com/v1/news/similar/" ++ uuid
      limit := limit
      categories := categories
      domains := defaultDomains
      language := defaultLanguages }
  (params, searchCatch (searchBody net))

/-- Parsed JSON payload of the news/uuid endpoint: a flat article record,
possibly with an embedded error object; a field is none when the key is
absent. -/
structure UuidPayload where
  error : Option ErrInfo := none
  warnings : Option (List (String × String)) := none
  uuid : Option JVal := none
  title : Option JVal := none
  snippet : Option JVal := none
  description : Option JVal := none
  url : Option JVal := none
  source : Option JVal := none
deriving DecidableEq, Repr

/-- The dictionary built by the comprehension in search_news_by_uuid
(lines 164 to 165) when every key is present. -/
structure UuidRecord where
  uuid : JVal
  title : JVal
  snippet : JVal
  description : JVal
  url : JVal
  source : JVal
deriving DecidableEq, Repr

/-- Return value of search_news_by_uuid: the empty-list sentinel used on
every failure path, or the extracted record. -/
inductive UuidReturn where
  | emptyList
  | record (r : UuidRecord)
deriving DecidableEq, Repr

/-- The dictionary comprehension over the keys uuid, title, snippet,
description, url, source: direct indexing raises KeyError at the first
missing key, with no defaulting. -/
def extractUuidRecord (data : UuidPayload) : Except PyExc UuidRecord :=
  match data.uuid with
  | none => .error (.keyError "uuid")
  | some u =>
    match data.title with
    | none => .error (.keyError "title")
    | some t =>
      match data.snippet with
      | none => .error (.keyError "snippet")
      | some sn =>
        match data.description with
        | none => .error (.keyError "description")
        | some d =>
          match data.url with
          | none => .error (.keyError "url")
          | some ur =>
            match data.source with
            | none => .error (.keyError "source")
            | some so =>
              .ok { uuid := u, title := t, snippet := sn, description := d, url := ur, source := so }

/-- The try-block of search_news_by_uuid: an exception from the request
propagates; an error object yields the empty-list sentinel; otherwise the
fixed field set is extracted, a KeyError from a missing key propagating
out of the comprehension. -/
def uuidBody (net : HttpResult UuidPayload) : Except PyExc UuidReturn :=
  match net with
  | .exn e => .error e
  | .ok data =>
    match data.error with
    | some _ => .ok .emptyList
    | none =>
      match extractUuidRecord data with
      | .ok r => .ok (.record r)
      | .error e => .error e

/-- The except clauses of search_news_by_uuid (lines 168 to 185): every
exception class, the final catch-all included, converts to the empty-list
sentinel. -/
def uuidCatch (r : Except PyExc UuidReturn) : UuidReturn :=
  match r with
  | .ok v => v
  | .error .timeout => .emptyList
  | .error .connectionError => .emptyList
  | .error .httpError => .emptyList
  | .error .requestException => .emptyList
  | .error .valueError => .emptyList
  | .error (.keyError _) => .emptyList
  | .error .other => .emptyList

/-- The params dictionary of search_news_by_uuid (lines 139 to 142). -/
structure UuidParams where
  api_token : Option String
  url : String
deriving DecidableEq, Repr

/-- Embedding of TheNewsAPIClient.search_news_by_uuid: issue the request
to the identifier endpoint and contain every exception. -/
def search_news_by_uuid (access_token : Option String) (uuid : String)
    (net : HttpResult UuidPayload) : UuidParams × UuidReturn :=
  let params : UuidParams :=
    { api_token := access_token
      url := "https://api.thenewsapi.com/v1/news/uuid/" ++ uuid }
  (params, uuidCatch (uuidBody net))

/-- Values occurring in a tool response dictionary. -/
inductive EnvVal where
  | s (v : String)
  | n (v : Nat)
  | arts (v : List Article)
  | uuidRet (v : UuidReturn)
deriving DecidableEq, Repr

/-- A tool response dictionary, as an association list in insertion
order; every key is inserted at most once. -/
abbrev Envelope := List (String × EnvVal)

/-- Look up a key in a response dictionary. -/
def lookupKey (e : Envelope) (k : String) : Option EnvVal :=
  (e.find? (fun p => p.1 = k)).map (fun p => p.2)

/-- Whether a response dictionary contains a key. -/
def hasKey (e : Envelope) (k : String) : Bool :=
  (e.find? (fun p => p.1 = k)).isSome

/-- The message added by the search tool whenever the result list is
empty, and by get_article whenever no record was obtained. -/
def noResultsMessage : String :=
  "No search results found. This could indicate connectivity issues, API errors, or simply no matching articles."

/-- Outcome of one invocation of the search tool: the arguments passed on
to the gateway (none when the empty-query branch returned without calling
it), the outbound request the gateway issued (none when no network call
happened), and the response envelope. -/
structure SearchToolResult where
  gatewayArgs : Option (String × Int × Option (List NewsCategory))
  netRequest : Option SearchParams
  envelope : Envelope
deriving DecidableEq, Repr

/-- Embedding of the search tool of server.py: validate the query,
re-clamp the limit, delegate to search_news, and build the response
envelope of keys query, results, status, count, plus message when the
result list is empty. -/
def search_tool (access_token : Option String) (query : String) (limit : Int)
    (categories : Option (List NewsCategory)) (net : HttpResult SearchPayload) :
    SearchToolResult :=
  if query = "" ∨ pyStrip query = "" then
    { gatewayArgs := none
      netRequest := none
      envelope := [("query", .s query), ("results", .arts []), ("status", .s "error"),
                   ("message", .s "Empty search query provided")] }
  else
    let validated_limit := if limit ≤ 0 then (1 : Int) else if limit > 3 then 3 else limit
    let call := search_news access_token query categories validated_limit net
    let results := call.2
    let status := if results.isEmpty then "no_results" else "success"
    let response : Envelope :=
      [("query", .s query), ("results", .arts results),
       ("status", .s status), ("count", .n results.length)]
    { gatewayArgs := some (query, validated_limit, categories)
      netRequest := call.1
      envelope := if results.isEmpty then response ++ [("message", .s noResultsMessage)] else response }

/-- Outcome of one invocation of the get_article tool: the uuid passed on
to the gateway (none when the empty-uuid branch returned without calling
it) and the response envelope. -/
structure GetArticleResult where
  gatewayArgs : Option String
  envelope : Envelope
deriving DecidableEq, Repr

/-- Embedding of the get_article tool of server.py: validate the uuid,
delegate to search_news_by_uuid, and build the response envelope.  Note
the empty-uuid branch of the source places its empty list under the key
results, not result. -/
def get_article (access_token : Option String) (uuid : String)
    (net : HttpResult UuidPayload) : GetArticleResult :=
  if uuid = "" ∨ pyStrip uuid = "" then
    { gatewayArgs := none
      envelope := [("uuid", .s uuid), ("results", .arts []), ("status", .s "error"),
                   ("message", .s "Empty search query provided")] }
  else
    let call := search_news_by_uuid access_token uuid net
    let result := call.2
    let status := match result with | .emptyList => "no_results" | .record _ => "success"
    let response : Envelope :=
      [("uuid", .s uuid), ("result", .uuidRet result), ("status", .s status)]
    { gatewayArgs := some uuid
      envelope :=
        match result with
        | .emptyList => response ++ [("message", .s noResultsMessage)]
        | .record _ => response }

/-- Concrete demonstration items: one with a title, one without, one with
an empty title. -/
def demoItems : List Item :=
  [{ title := some (JVal.s "A") }, {}, { title := some (JVal.s "") }]

/-- Concrete successful payload carrying the demonstration items. -/
def demoPayload : SearchPayload :=
  { error := none, warnings := none, data := some demoItems }

/-- Concrete upstream item carrying only a title. -/
def demoTitledItem : Item := { title := some (JVal.s "T") }

/-- Concrete successful identifier-lookup payload lacking the source key. -/
def demoUuidPayloadNoSource : UuidPayload :=
  { error := none, warnings := none, uuid := some (.s "u1"), title := some (.s "T"),
    snippet := some (.s "sn"), description := some (.s "d"), url := some (.s "http://x"),
    source := none }

/-! Helper lemmas shared by several claims. -/

theorem pyStrip_empty : pyStrip "" = "" := rfl

theorem not_empty_cond (q : String) (h : pyStrip q ≠ "") : ¬(q = "" ∨ pyStrip q = "") := by
  rintro (rfl | he)
  · exact h pyStrip_empty
  · exact h he

theorem mapItem_isSome (i : Item) : (mapItem i).isSome = optTruthy i.title := by
  unfold mapItem optTruthy
  cases i.title with
  | none => rfl
  | some t => by_cases h : jTruthy t <;> simp [h]

theorem mapItem_title (i : Item) (a : Article) (h : mapItem i = some a) :
    jTruthy a.title = true := by
  cases ht : i.title with
  | none =>
    simp only [mapItem, ht] at h
    exact Option.noConfusion h
  | some t =>
    simp only [mapItem, ht] at h
    by_cases hj : jTruthy t
    · rw [if_pos hj, Option.some_inj] at h
      rw [← h]
      exact hj
    · rw [if_neg hj] at h
      exact absurd h (by simp)

theorem mapResults_title (items : List Item) (a : Article) (ha : a ∈ mapResults items) :
    jTruthy a.title = true := by
  unfold mapResults at ha
  rw [List.mem_filterMap] at ha
  obtain ⟨i, _, hi⟩ := ha
  exact mapItem_title i a hi

theorem mapResults_length (items : List Item) :
    (mapResults items).length = items.countP (fun i => optTruthy i.title) := by
  induction items with
  | nil => rfl
  | cons i is ih =>
    have hs := mapItem_isSome i
    unfold mapResults at ih ⊢
    rw [List.filterMap_cons, List.countP_cons]
    cases hm : mapItem i with
    | none =>
      rw [hm] at hs
      simp [← hs, ih]
    | some a =>
      rw [hm] at hs
      simp [← hs, ih]

theorem mapItem_none_of_untitled (i : Item) (h : optTruthy i.title = false) :
    mapItem i = none := by
  have hs := mapItem_isSome i
  rw [h] at hs
  exact Option.not_isSome_iff_eq_none.mp (by rw [hs]; exact Bool.false_ne_true)

theorem search_news_ok_data (tok : Option String) (q : String)
    (cats : Option (List NewsCategory)) (lim : Int)
    (w : Option (List (String × String))) (items : List Item)
    (h : ¬(q = "" ∨ pyStrip q = "")) :
    (search_news tok q cats lim (.ok { error := none, warnings := w, data := some items })).2
      = mapResults items := by
  unfold search_news
  rw [if_neg h]
  rfl

/-- C1: for every query that is empty or whitespace-only, the search tool
returns an envelope with status error, an empty results list and a
non-empty diagnostic message, and neither calls the gateway nor issues
any network request. -/
theorem search_tool_empty_query_error (tok : Option String) (lim : Int)
    (cats : Option (List NewsCategory)) (net : HttpResult SearchPayload)
    (q : String) (h : pyStrip q = "") :
    (search_tool tok q lim cats net).gatewayArgs = none ∧
    (search_tool tok q lim cats net).netRequest = none ∧
    lookupKey (search_tool tok q lim cats net).envelope "status" = some (.s "error") ∧
    lookupKey (search_tool tok q lim cats net).envelope "results" = some (.arts []) ∧
    ∃ m, m ≠ "" ∧ lookupKey (search_tool tok q lim cats net).envelope "message" = some (.s m) := by
  unfold search_tool
  rw [if_pos (Or.inr h)]
  exact ⟨rfl, rfl, rfl, rfl, "Empty search query provided", by decide, rfl⟩

theorem search_tool_empty_query_error_witness :
    (search_tool none "   " 1 none (.exn .timeout)).gatewayArgs = none ∧
    (search_tool none "   " 1 none (.exn .timeout)).netRequest = none ∧
    lookupKey (search_tool none "   " 1 none (.exn .timeout)).envelope "status" = some (.s "error") ∧
    lookupKey (search_tool none "   " 1 none (.exn .timeout)).envelope "results" = some (.arts []) ∧
    ∃ m, m ≠ "" ∧ lookupKey (search_tool none "   " 1 none (.exn .timeout)).envelope "message" = some (.s m) :=
  search_tool_empty_query_error none 1 none (.exn .timeout) "   " (by decide)

/-- C3: the facade clamps the limit into the range from 1 to 3 before
delegating (nonpositive values become 1, values above 3 become 3, values
in range pass unchanged), and the gateway applies the same clamping again
to whatever limit it receives. -/
theorem limit_clamped_in_facade_and_gateway (tok : Option String) (q : String)
    (lim : Int) (cats : Option (List NewsCategory)) (net : HttpResult SearchPayload)
    (h : pyStrip q ≠ "") :
    ((search_tool tok q lim cats net).gatewayArgs =
        some (q, (if lim ≤ 0 then 1 else if lim > 3 then 3 else lim), cats)) ∧
    (∀ l : Int, ∃ p : SearchParams,
        (search_news tok q cats l net).1 = some p ∧
        p.limit = (if l ≤ 0 then 1 else if l > 3 then 3 else l)) := by
  have hc := not_empty_cond q h
  constructor
  · unfold search_tool
    rw [if_neg hc]
  · intro l
    unfold search_news
    rw [if_neg hc]
    exact ⟨_, rfl, rfl⟩

theorem limit_clamped_witness :
    ((search_tool none "hi" 5 none (.exn .timeout)).gatewayArgs =
        some ("hi", (if (5 : Int) ≤ 0 then 1 else if (5 : Int) > 3 then 3 else 5), none)) ∧
    (∀ l : Int, ∃ p : SearchParams,
        (search_news none "hi" none l (.exn .timeout)).1 = some p ∧
        p.limit = (if l ≤ 0 then 1 else if l > 3 then 3 else l)) :=
  limit_clamped_in_facade_and_gateway none "hi" 5 none (.exn .timeout) (by decide)

/-- C4: the search text the gateway transmits upstream is the trimmed
query, except that a trimmed query longer than 300 characters is cut down
to its first 100 characters. -/
theorem transmitted_query_truncation (tok : Option String) (q : String)
    (cats : Option (List NewsCategory)) (lim : Int) (net : HttpResult SearchPayload)
    (h : pyStrip q ≠ "") :
    ∃ p : SearchParams, (search_news tok q cats lim net).1 = some p ∧
      (pyLen (pyStrip q) > 300 → p.search = pyTake (pyStrip q) 100) ∧
      (pyLen (pyStrip q) ≤ 300 → p.search = pyStrip q) := by
  have hc := not_empty_cond q h
  unfold search_news
  rw [if_neg hc]
  refine ⟨_, rfl, ?_, ?_⟩
  · intro hl
    show (if pyLen (pyStrip q) > 300 then pyTake (pyStrip q) 100 else pyStrip q) = pyTake (pyStrip q) 100
    rw [if_pos hl]
  · intro hl
    show (if pyLen (pyStrip q) > 300 then pyTake (pyStrip q) 100 else pyStrip q) = pyStrip q
    rw [if_neg (by omega)]

theorem transmitted_query_truncation_witness :
    ∃ p : SearchParams, (search_news none " abc " none 1 (.exn .timeout)).1 = some p ∧
      (pyLen (pyStrip " abc ") > 300 → p.search = pyTake (pyStrip " abc ") 100) ∧
      (pyLen (pyStrip " abc ") ≤ 300 → p.search = pyStrip " abc ") :=
  transmitted_query_truncation none " abc " none 1 (.exn .timeout) (by decide)

/-- C5: both list-returning gateway operations drop every upstream item
whose title is missing or empty, every returned article has a non-empty
title, and the returned length equals the number of upstream items with a
non-empty title. -/
theorem untitled_items_filtered (tok : Option String) (q u : String) (lim : Int)
    (cats : Option (List NewsCategory)) (w : Option (List (String × String)))
    (items : List Item) (h : pyStrip q ≠ "") :
    (∀ a ∈ (search_news tok q cats lim (.ok { error := none, warnings := w, data := some items })).2,
        jTruthy a.title = true) ∧
    ((search_news tok q cats lim (.ok { error := none, warnings := w, data := some items })).2.length
        = items.countP (fun i => optTruthy i.title)) ∧
    (∀ i ∈ items, optTruthy i.title = false → mapItem i = none) ∧
    (∀ a ∈ (search_similar_news_by_uuid tok u lim cats (.ok { error := none, warnings := w, data := some items })).2,
        jTruthy a.title = true) ∧
    ((search_similar_news_by_uuid tok u lim cats (.ok { error := none, warnings := w, data := some items })).2.length
        = items.countP (fun i => optTruthy i.title)) := by
  have hc := not_empty_cond q h
  have h1 := search_news_ok_data tok q cats lim w items hc
  have h2 : (search_similar_news_by_uuid tok u lim cats
      (.ok { error := none, warnings := w, data := some items })).2 = mapResults items := rfl
  refine ⟨?_, ?_, ?_, ?_, ?_⟩
  · rw [h1]
    exact fun a ha => mapResults_title items a ha
  · rw [h1, mapResults_length]
  · exact fun i _ hti => mapItem_none_of_untitled i hti
  · rw [h2]
    exact fun a ha => mapResults_title items a ha
  · rw [h2, mapResults_length]

theorem untitled_items_filtered_witness :
    (∀ a ∈ (search_news none "news" none 1 (.ok demoPayload)).2, jTruthy a.title = true) ∧
    ((search_news none "news" none 1 (.ok demoPayload)).2.length
        = demoItems.countP (fun i => optTruthy i.title)) ∧
    (∀ i ∈ demoItems, optTruthy i.title = false → mapItem i = none) ∧
    (∀ a ∈ (search_similar_news_by_uuid none "u1" 1 none (.ok demoPayload)).2,
        jTruthy a.title = true) ∧
    ((search_similar_news_by_uuid none "u1" 1 none (.ok demoPayload)).2.length
        = demoItems.countP (fun i => optTruthy i.title)) :=
  untitled_items_filtered none "news" "u1" 1 none none demoItems (by decide)

/-- C6: every transport-level failure of the keyword search (timeout,
connection error, non-2xx status, malformed body, or any other exception)
and every 200 payload carrying an upstream error object yield an empty
result list; the total return type records that no exception escapes. -/
theorem search_news_failures_empty (tok : Option String) (q : String)
    (cats : Option (List NewsCategory)) (lim : Int) :
    (∀ e : PyExc, (search_news tok q cats lim (.exn e)).2 = []) ∧
    (∀ (err : ErrInfo) (w : Option (List (String × String))) (d : Option (List Item)),
        (search_news tok q cats lim (.ok { error := some err, warnings := w, data := d })).2 = []) := by
  constructor
  · intro e
    unfold search_news
    by_cases hc : q = "" ∨ pyStrip q = ""
    · rw [if_pos hc]
    · rw [if_neg hc]
      cases e <;> rfl
  · intro err w d
    unfold search_news
    by_cases hc : q = "" ∨ pyStrip q = ""
    · rw [if_pos hc]
    · rw [if_neg hc]
      rfl

/-- Characterization of the search tool envelope on a non-empty query,
used by the status claim below. -/
theorem search_tool_envelope (tok : Option String) (q : String) (lim : Int)
    (cats : Option (List NewsCategory)) (net : HttpResult SearchPayload)
    (hc : ¬(q = "" ∨ pyStrip q = "")) :
    (search_tool tok q lim cats net).envelope =
      (if (search_news tok q cats (if lim ≤ 0 then 1 else if lim > 3 then 3 else lim) net).2.isEmpty then
        [("query", EnvVal.s q),
         ("results", EnvVal.arts (search_news tok q cats (if lim ≤ 0 then 1 else if lim > 3 then 3 else lim) net).2),
         ("status", EnvVal.s (if (search_news tok q cats (if lim ≤ 0 then 1 else if lim > 3 then 3 else lim) net).2.isEmpty then "no_results" else "success")),
         ("count", EnvVal.n (search_news tok q cats (if lim ≤ 0 then 1 else if lim > 3 then 3 else lim) net).2.length)]
          ++ [("message", EnvVal.s noResultsMessage)]
       else
        [("query", EnvVal.s q),
         ("results", EnvVal.arts (search_news tok q cats (if lim ≤ 0 then 1 else if lim > 3 then 3 else lim) net).2),
         ("status", EnvVal.s (if (search_news tok q cats (if lim ≤ 0 then 1 else if lim > 3 then 3 else lim) net).2.isEmpty then "no_results" else "success")),
         ("count", EnvVal.n (search_news tok q cats (if lim ≤ 0 then 1 else if lim > 3 then 3 else lim) net).2.length)]) := by
  unfold search_tool
  rw [if_neg hc]

/-- C7: on a non-empty query the search tool reports status success
exactly when the gateway returned a non-empty list; otherwise it reports
status no_results with count 0, an empty results list and a non-empty
message; the count entry always equals the length of the results entry. -/
theorem search_tool_status (tok : Option String) (q : String) (lim : Int)
    (cats : Option (List NewsCategory)) (net : HttpResult SearchPayload)
    (h : pyStrip q ≠ "") :
    (lookupKey (search_tool tok q lim cats net).envelope "results"
      = some (.arts (search_news tok q cats (if lim ≤ 0 then 1 else if lim > 3 then 3 else lim) net).2)) ∧
    (lookupKey (search_tool tok q lim cats net).envelope "count"
      = some (.n (search_news tok q cats (if lim ≤ 0 then 1 else if lim > 3 then 3 else lim) net).2.length)) ∧
    ((search_news tok q cats (if lim ≤ 0 then 1 else if lim > 3 then 3 else lim) net).2 ≠ [] →
      lookupKey (search_tool tok q lim cats net).envelope "status" = some (.s "success")) ∧
    ((search_news tok q cats (if lim ≤ 0 then 1 else if lim > 3 then 3 else lim) net).2 = [] →
      lookupKey (search_tool tok q lim cats net).envelope "status" = some (.s "no_results") ∧
      lookupKey (search_tool tok q lim cats net).envelope "results" = some (.arts []) ∧
      lookupKey (search_tool tok q lim cats net).envelope "count" = some (.n 0) ∧
      ∃ m, m ≠ "" ∧ lookupKey (search_tool tok q lim cats net).envelope "message" = some (.s m)) := by
  have hc := not_empty_cond q h
  have he := search_tool_envelope tok q lim cats net hc
  cases hR : (search_news tok q cats (if lim ≤ 0 then 1 else if lim > 3 then 3 else lim) net).2 with
  | nil =>
    rw [hR] at he
    rw [he]
    exact ⟨rfl, rfl, fun hne => absurd rfl hne,
      fun _ => ⟨rfl, rfl, rfl, noResultsMessage, by decide, rfl⟩⟩
  | cons a as =>
    rw [hR] at he
    rw [he]
    exact ⟨rfl, rfl, fun _ => rfl, fun heq => absurd heq (by simp)⟩

theorem search_tool_status_witness :
    (lookupKey (search_tool none "hi" 1 none (.exn .timeout)).envelope "results"
      = some (.arts (search_news none "hi" none (if (1 : Int) ≤ 0 then 1 else if (1 : Int) > 3 then 3 else 1) (.exn .timeout)).2)) ∧
    (lookupKey (search_tool none "hi" 1 none (.exn .timeout)).envelope "count"
      = some (.n (search_news none "hi" none (if (1 : Int) ≤ 0 then 1 else if (1 : Int) > 3 then 3 else 1) (.exn .timeout)).2.length)) ∧
    ((search_news none "hi" none (if (1 : Int) ≤ 0 then 1 else if (1 : Int) > 3 then 3 else 1) (.exn .timeout)).2 ≠ [] →
      lookupKey (search_tool none "hi" 1 none (.exn .timeout)).envelope "status" = some (.s "success")) ∧
    ((search_news none "hi" none (if (1 : Int) ≤ 0 then 1 else if (1 : Int) > 3 then 3 else 1) (.exn .timeout)).2 = [] →
      lookupKey (search_tool none "hi" 1 none (.exn .timeout)).envelope "status" = some (.s "no_results") ∧
      lookupKey (search_tool none "hi" 1 none (.exn .timeout)).envelope "results" = some (.arts []) ∧
      lookupKey (search_tool none "hi" 1 none (.exn .timeout)).envelope "count" = some (.n 0) ∧
      ∃ m, m ≠ "" ∧ lookupKey (search_tool none "hi" 1 none (.exn .timeout)).envelope "message" = some (.s m)) :=
  search_tool_status none "hi" 1 none (.exn .timeout) (by decide)

/-- Reduction of the identifier-lookup body on a payload without an
upstream error object: the outcome is decided by the field extraction. -/
theorem uuidBody_ok_of_no_error (p : UuidPayload) (he : p.error = none) :
    uuidBody (.ok p) =
      (match extractUuidRecord p with
       | .ok r => Except.ok (UuidReturn.record r)
       | .error e => Except.error e) := by
  simp only [uuidBody]
  rw [he]

/-- C2 counterexample: on a successful response whose payload lacks the
source key, the dictionary comprehension does raise a KeyError, but the
call converts it to the empty-list sentinel instead of letting it
propagate. -/
theorem uuid_missing_key_not_fatal :
    uuidBody (.ok demoUuidPayloadNoSource) = .error (.keyError "source") ∧
    (search_news_by_uuid none "u1" (.ok demoUuidPayloadNoSource)).2 = .emptyList :=
  ⟨rfl, rfl⟩

/-- C2 amended: on a success payload without an upstream error object but
lacking one of the keys uuid, title, snippet, description, url, source,
the comprehension raises a KeyError, which the catch-all handler converts
to the empty-list sentinel; no exception escapes the call. -/
theorem uuid_missing_key_swallowed (tok : Option String) (u : String) (p : UuidPayload)
    (herr : p.error = none)
    (hmiss : p.uuid = none ∨ p.title = none ∨ p.snippet = none ∨ p.description = none
      ∨ p.url = none ∨ p.source = none) :
    (∃ k : String, uuidBody (.ok p) = .error (.keyError k)) ∧
    (search_news_by_uuid tok u (.ok p)).2 = .emptyList := by
  have hext : ∃ k : String, extractUuidRecord p = .error (.keyError k) := by
    obtain ⟨e, w, pu, pt, psn, pd, purl, pso⟩ := p
    cases pu with
    | none => exact ⟨"uuid", rfl⟩
    | some v1 =>
      cases pt with
      | none => exact ⟨"title", rfl⟩
      | some v2 =>
        cases psn with
        | none => exact ⟨"snippet", rfl⟩
        | some v3 =>
          cases pd with
          | none => exact ⟨"description", rfl⟩
          | some v4 =>
            cases purl with
            | none => exact ⟨"url", rfl⟩
            | some v5 =>
              cases pso with
              | none => exact ⟨"source", rfl⟩
              | some v6 => simp at hmiss
  obtain ⟨k, hk⟩ := hext
  have hb : uuidBody (.ok p) = .error (.keyError k) := by
    rw [uuidBody_ok_of_no_error p herr, hk]
  refine ⟨⟨k, hb⟩, ?_⟩
  show uuidCatch (uuidBody (.ok p)) = .emptyList
  rw [hb]
  rfl

theorem uuid_missing_key_swallowed_witness :
    (∃ k : String, uuidBody (.ok demoUuidPayloadNoSource) = .error (.keyError k)) ∧
    (search_news_by_uuid none "u2" (.ok demoUuidPayloadNoSource)).2 = .emptyList :=
  uuid_missing_key_swallowed none "u2" demoUuidPayloadNoSource rfl (by decide)

/-- C8: the empty-uuid branch of get_article builds its envelope with the
key results (holding an empty list) instead of the key result announced
by the docstring and the spec; uuid, status and message are present, the
status being error. -/
theorem get_article_empty_uuid_envelope (tok : Option String) (net : HttpResult UuidPayload) :
    hasKey (get_article tok "" net).envelope "result" = false ∧
    lookupKey (get_article tok "" net).envelope "results" = some (.arts []) ∧
    lookupKey (get_article tok "" net).envelope "status" = some (.s "error") ∧
    hasKey (get_article tok "" net).envelope "uuid" = true ∧
    hasKey (get_article tok "" net).envelope "message" = true :=
  ⟨rfl, rfl, rfl, rfl, rfl⟩

/-- C9: in the item-to-article mapping shared by the keyword search and
the similarity search, a missing uuid or source defaults to the integer
0, while a missing description, snippet, published_at or url defaults to
the empty string. -/
theorem article_field_defaults (tok : Option String) (q u : String) (lim : Int)
    (cats : Option (List NewsCategory)) (i : Item) (t : JVal)
    (h : pyStrip q ≠ "") (ht : i.title = some t) (htt : jTruthy t = true) :
    ∃ a : Article, mapItem i = some a ∧
      (search_news tok q cats lim (.ok { error := none, warnings := none, data := some [i] })).2 = [a] ∧
      (search_similar_news_by_uuid tok u lim cats (.ok { error := none, warnings := none, data := some [i] })).2 = [a] ∧
      (i.uuid = none → a.uuid = .n 0) ∧
      (i.source = none → a.source = .n 0) ∧
      (i.description = none → a.description = .s "") ∧
      (i.snippet = none → a.snippet = .s "") ∧
      (i.published_at = none → a.published_at = .s "") ∧
      (i.url = none → a.url = .s "") := by
  have hc := not_empty_cond q h
  have hm : mapItem i = some
      { title := t
        description := i.description.getD (.s "")
        snippet := i.snippet.getD (.s "")
        uuid := i.uuid.getD (.n 0)
        published_at := i.published_at.getD (.s "")
        url := i.url.getD (.s "")
        source := i.source.getD (.n 0) } := by
    simp only [mapItem, ht, htt, if_true]
  refine ⟨_, hm, ?_, ?_, ?_, ?_, ?_, ?_, ?_, ?_⟩
  · rw [search_news_ok_data tok q cats lim none [i] hc]
    unfold mapResults
    rw [List.filterMap_cons_some hm]
    rfl
  · show mapResults [i] = _
    unfold mapResults
    rw [List.filterMap_cons_some hm]
    rfl
  · intro h0
    show i.uuid.getD (.n 0) = .n 0
    rw [h0]
    rfl
  · intro h0
    show i.source.getD (.n 0) = .n 0
    rw [h0]
    rfl
  · intro h0
    show i.description.getD (.s "") = .s ""
    rw [h0]
    rfl
  · intro h0
    show i.snippet.getD (.s "") = .s ""
    rw [h0]
    rfl
  · intro h0
    show i.published_at.getD (.s "") = .s ""
    rw [h0]
    rfl
  · intro h0
    show i.url.getD (.s "") = .s ""
    rw [h0]
    rfl

theorem article_field_defaults_witness :
    ∃ a : Article, mapItem demoTitledItem = some a ∧
      (search_news none "news" none 1
        (.ok { error := none, warnings := none, data := some [demoTitledItem] })).2 = [a] ∧
      (search_similar_news_by_uuid none "u1" 1 none
        (.ok { error := none, warnings := none, data := some [demoTitledItem] })).2 = [a] ∧
      (demoTitledItem.uuid = none → a.uuid = .n 0) ∧
      (demoTitledItem.source = none → a.source = .n 0) ∧
      (demoTitledItem.description = none → a.description = .s "") ∧
      (demoTitledItem.snippet = none → a.snippet = .s "") ∧
      (demoTitledItem.published_at = none → a.published_at = .s "") ∧
      (demoTitledItem.url = none → a.url = .s "") :=
  article_field_defaults none "news" "u1" 1 none demoTitledItem
    (JVal.s "T") (by decide) rfl (by decide)

/-- C10: the query entry of the search tool envelope is always the
original caller input, verbatim, even though the gateway trims and may
truncate the search text it transmits. -/
theorem envelope_query_verbatim (tok : Option String) (q : String) (lim : Int)
    (cats : Option (List NewsCategory)) (net : HttpResult SearchPayload)
    (h : q ≠ "") :
    lookupKey (search_tool tok q lim cats net).envelope "query" = some (.s q) := by
  by_cases hc : q = "" ∨ pyStrip q = ""
  · unfold search_tool
    rw [if_pos hc]
    rfl
  · have he := search_tool_envelope tok q lim cats net hc
    rw [he]
    cases (search_news tok q cats (if lim ≤ 0 then 1 else if lim > 3 then 3 else lim) net).2 with
    | nil => rfl
    | cons a as => rfl

theorem envelope_query_verbatim_witness :
    lookupKey (search_tool none " padded " 1 none (.exn .timeout)).envelope "query"
      = some (.s " padded ") :=
  envelope_query_verbatim none " padded " 1 none (.exn .timeout) (by decide)

end TheNewsAPI
